import Mathlib

/-!
Verification development for the recipe-app-api repository: a shallow
embedding of its ownership-scoped CRUD layer. The only non-test source
file of the snapshot is app/recipe/views.py; definitions taken from it
are marked "Embeds". The user app, core/models.py and the serializers
are present only through their tests, so the corresponding behaviour is
modelled from the specification and marked "Modelled from the spec".
-/

namespace RecipeApp

/-- Modelled from the spec: the User account entity of core/models.py
(not under src/), spec section 3: email-keyed account with hashed
password, name and staff/superuser/active flags. The password field
stands for the credential that the hashing library verifies. -/
structure User where
  id : Nat
  email : String
  password : String
  name : String
  is_staff : Bool
  is_superuser : Bool
  is_active : Bool
  deriving Repr, DecidableEq

/-- Modelled from the spec: the Tag entity of core/models.py (not under
src/): a name owned by exactly one user; the owner is stored as the
user id of the foreign key. -/
structure Tag where
  id : Nat
  user : Nat
  name : String
  deriving Repr, DecidableEq

/-- Modelled from the spec: the Ingredient entity of core/models.py
(not under src/), structurally identical to Tag. -/
structure Ingredient where
  id : Nat
  user : Nat
  name : String
  deriving Repr, DecidableEq

/-- Modelled from the spec: the Recipe entity of core/models.py (not
under src/): owner, scalar fields, optional link and image, and
many-to-many associations to Tags and Ingredients kept as id lists.
The decimal price is modelled in fixed-point as a natural number. -/
structure Recipe where
  id : Nat
  user : Nat
  title : String
  time_minutes : Nat
  price : Nat
  link : String
  image : Option String
  tags : List Nat
  ingredients : List Nat
  deriving Repr, DecidableEq

/-- The relational store the framework ORM manages: one table per
entity. -/
structure DB where
  users : List User
  tags : List Tag
  ingredients : List Ingredient
  recipes : List Recipe
  deriving Repr, DecidableEq

/-- Embeds BaseRecipeAttributeViewSet.get_queryset (views.py lines
16-17) as inherited by TagViewSet: the stored tags filtered to the
user of the request and ordered by name. -/
def tag_get_queryset (db : DB) (requester : Nat) : List Tag :=
  (db.tags.filter (fun t => t.user == requester)).mergeSort
    (fun a b => decide (a.name ≤ b.name))

/-- Embeds BaseRecipeAttributeViewSet.get_queryset (views.py lines
16-17) as inherited by IngredientViewSet. -/
def ingredient_get_queryset (db : DB) (requester : Nat) : List Ingredient :=
  (db.ingredients.filter (fun i => i.user == requester)).mergeSort
    (fun a b => decide (a.name ≤ b.name))

/-- Embeds RecipeViewSet.get_queryset (views.py lines 41-42): the
stored recipes filtered to the user of the request and ordered by id. -/
def recipe_get_queryset (db : DB) (requester : Nat) : List Recipe :=
  (db.recipes.filter (fun r => r.user == requester)).mergeSort
    (fun a b => decide (a.id ≤ b.id))

/-- Embeds the framework object lookup used by every detail route
(retrieve, update, partial update, destroy): the object with the
requested primary key is searched inside get_queryset only. -/
def recipe_get_object (db : DB) (requester : Nat) (pk : Nat) : Option Recipe :=
  (recipe_get_queryset db requester).find? (fun r => r.id == pk)

/-- Outcome of a detail request by an authenticated user. The
permissionDenied constructor exists in the framework response
vocabulary but RecipeViewSet configures only the IsAuthenticated
permission (views.py line 38), so an authenticated request can never
produce it. -/
inductive DetailResult where
  | ok (r : Recipe)
  | notFound
  | permissionDenied
  deriving Repr, DecidableEq

/-- Embeds the detail dispatch for an authenticated request on
GET/PATCH/PUT/DELETE of recipe/recipes/pk: the framework raises a
not-found error when the primary key is absent from get_queryset. -/
def recipe_detail_lookup (db : DB) (requester : Nat) (pk : Nat) : DetailResult :=
  match recipe_get_object db requester pk with
  | some r => .ok r
  | none => .notFound

theorem mem_tag_queryset (db : DB) (u : Nat) (t : Tag) :
    t ∈ tag_get_queryset db u ↔ t ∈ db.tags ∧ t.user = u := by
  unfold tag_get_queryset
  rw [List.mem_mergeSort, List.mem_filter]
  simp

theorem mem_ingredient_queryset (db : DB) (u : Nat) (i : Ingredient) :
    i ∈ ingredient_get_queryset db u ↔ i ∈ db.ingredients ∧ i.user = u := by
  unfold ingredient_get_queryset
  rw [List.mem_mergeSort, List.mem_filter]
  simp

theorem mem_recipe_queryset (db : DB) (u : Nat) (r : Recipe) :
    r ∈ recipe_get_queryset db u ↔ r ∈ db.recipes ∧ r.user = u := by
  unfold recipe_get_queryset
  rw [List.mem_mergeSort, List.mem_filter]
  simp

/-- C1: for distinct authenticated users A and B, no Tag, Ingredient or
Recipe owned by A is ever in the queryset that backs the list and
detail responses of B, and a detail request by B for a recipe id owned
by A resolves to not-found, never to permission-denied or to the
record. -/
theorem crossUserIsolation (db : DB) (A B : Nat) (hAB : A ≠ B) :
    (∀ t : Tag, t.user = A → t ∉ tag_get_queryset db B) ∧
    (∀ i : Ingredient, i.user = A → i ∉ ingredient_get_queryset db B) ∧
    (∀ r : Recipe, r.user = A → r ∉ recipe_get_queryset db B) ∧
    (∀ pk : Nat, (∀ r ∈ db.recipes, r.id = pk → r.user = A) →
      recipe_detail_lookup db B pk = DetailResult.notFound) := by
  refine ⟨?_, ?_, ?_, ?_⟩
  · intro t ht hmem
    rw [mem_tag_queryset] at hmem
    exact hAB (ht ▸ hmem.2)
  · intro i hi hmem
    rw [mem_ingredient_queryset] at hmem
    exact hAB (hi ▸ hmem.2)
  · intro r hr hmem
    rw [mem_recipe_queryset] at hmem
    exact hAB (hr ▸ hmem.2)
  · intro pk howner
    have hnone : recipe_get_object db B pk = none := by
      apply List.find?_eq_none.mpr
      intro r hmem hbeq
      rw [mem_recipe_queryset] at hmem
      have hid : r.id = pk := by simpa using hbeq
      exact hAB (howner r hmem.1 hid ▸ hmem.2)
    unfold recipe_detail_lookup
    rw [hnone]

/-- Two-user store used to exercise the isolation theorem: user 1 owns
tag 5, ingredient 6 and recipe 10; user 2 owns nothing. -/
def isolationDB : DB :=
  { users :=
      [⟨1, "owner@example.com", "ownerpass", "owner", false, false, true⟩,
       ⟨2, "other@example.com", "otherpass", "other", false, false, true⟩]
    tags := [⟨5, 1, "tag of user 1"⟩]
    ingredients := [⟨6, 1, "ing of user 1"⟩]
    recipes := [⟨10, 1, "recipe of user 1", 10, 1000, "", none, [5], [6]⟩] }

theorem crossUserIsolation_witness :
    recipe_detail_lookup isolationDB 2 10 = DetailResult.notFound :=
  (crossUserIsolation isolationDB 1 2 (by decide)).2.2.2 10 (by decide)

/-- Embeds the list action of TagViewSet: ListModelMixin serializes
exactly get_queryset, and views.py lines 16-17 never read the request
query parameters, so the assigned_only flag carried by the request does
not influence the response. -/
def tag_list_action (db : DB) (requester : Nat) (assigned_only : Bool) : List Tag :=
  tag_get_queryset db requester

/-- Embeds the list action of IngredientViewSet: same code path as the
tag list action (views.py lines 16-17), the assigned_only flag of the
request is never read. -/
def ingredient_list_action (db : DB) (requester : Nat) (assigned_only : Bool) :
    List Ingredient :=
  ingredient_get_queryset db requester

/-- Modelled from the spec: a tag is assigned for a user when at least
one recipe of that user references it; this is what the spec (section
4.2) and the tests test_retrieve_assigned_tags_only require the
assigned_only=1 listing to keep. -/
def tagAssigned (db : DB) (u : Nat) (t : Tag) : Bool :=
  db.recipes.any (fun r => r.user == u && r.tags.contains t.id)

/-- Modelled from the spec: an ingredient is assigned for a user when
at least one recipe of that user references it (spec section 4.2 and
test_retrieve_assigned_ingredients_only). -/
def ingredientAssigned (db : DB) (u : Nat) (i : Ingredient) : Bool :=
  db.recipes.any (fun r => r.user == u && r.ingredients.contains i.id)

/-- Store showing the missing assigned_only filtering: user 1 owns an
assigned tag 1 and a loose tag 2, an assigned ingredient 1 and a loose
ingredient 2, and one recipe referencing only tag 1 and ingredient 1. -/
def assignedBugDB : DB :=
  { users := [⟨1, "cook@example.com", "cookpass1", "cook", false, false, true⟩]
    tags := [⟨1, 1, "assigned tag"⟩, ⟨2, 1, "loose tag"⟩]
    ingredients := [⟨1, 1, "assigned ing"⟩, ⟨2, 1, "loose ing"⟩]
    recipes := [⟨1, 1, "rec 1", 10, 3500, "", none, [1], [1]⟩] }

/-- C2 (code bug): with assigned_only=1 the code still returns the tag
and the ingredient that no recipe of the user references, because
views.py lines 16-17 ignore the query parameter, while the tests
test_retrieve_assigned_tags_only and
test_retrieve_assigned_ingredients_only require them to be excluded. -/
theorem assignedOnlyIgnored :
    (⟨2, 1, "loose tag"⟩ : Tag) ∈ tag_list_action assignedBugDB 1 true ∧
    tagAssigned assignedBugDB 1 ⟨2, 1, "loose tag"⟩ = false ∧
    (⟨2, 1, "loose ing"⟩ : Ingredient) ∈ ingredient_list_action assignedBugDB 1 true ∧
    ingredientAssigned assignedBugDB 1 ⟨2, 1, "loose ing"⟩ = false := by
  refine ⟨?_, by decide, ?_, by decide⟩
  · have h : tag_list_action assignedBugDB 1 true = tag_get_queryset assignedBugDB 1 := rfl
    rw [h, mem_tag_queryset]
    decide
  · have h : ingredient_list_action assignedBugDB 1 true
        = ingredient_get_queryset assignedBugDB 1 := rfl
    rw [h, mem_ingredient_queryset]
    decide

/-- Embeds the list action of RecipeViewSet: views.py lines 41-42 never
read the tags or ingredients query parameters, so the comma-separated
id filters carried by the request do not influence the response. -/
def recipe_list_action (db : DB) (requester : Nat)
    (tagsFilter : Option (List Nat)) (ingredientsFilter : Option (List Nat)) :
    List Recipe :=
  recipe_get_queryset db requester

/-- Store showing the missing recipe filtering: user 1 has recipes 1
and 2 carrying tag 1 resp. ingredient 1, and recipe 3 referencing no
tag and no ingredient. -/
def filterBugDB : DB :=
  { users := [⟨1, "cook@example.com", "cookpass1", "cook", false, false, true⟩]
    tags := [⟨1, 1, "tag 1"⟩, ⟨2, 1, "tag 2"⟩]
    ingredients := [⟨1, 1, "ingredient 1"⟩, ⟨2, 1, "ingredient 2"⟩]
    recipes :=
      [⟨1, 1, "rec 1", 10, 1000, "", none, [1], []⟩,
       ⟨2, 1, "rec 2", 10, 1000, "", none, [], [1]⟩,
       ⟨3, 1, "rec 3", 10, 1000, "", none, [], []⟩] }

/-- C3 (code bug): a request filtered by tags=1,2 (and one filtered by
ingredients=1,2) still returns recipe 3, which references none of the
listed ids, because views.py lines 41-42 ignore the query parameters,
while test_filter_recipes_by_tags and test_filter_recipes_by_ingredients
require it to be excluded. -/
theorem recipeFiltersIgnored :
    (⟨3, 1, "rec 3", 10, 1000, "", none, [], []⟩ : Recipe)
      ∈ recipe_list_action filterBugDB 1 (some [1, 2]) none ∧
    (⟨3, 1, "rec 3", 10, 1000, "", none, [], []⟩ : Recipe)
      ∈ recipe_list_action filterBugDB 1 none (some [1, 2]) ∧
    (∀ t ∈ [1, 2], t ∉ ([] : List Nat)) := by
  refine ⟨?_, ?_, by decide⟩
  · have h : recipe_list_action filterBugDB 1 (some [1, 2]) none
        = recipe_get_queryset filterBugDB 1 := rfl
    rw [h, mem_recipe_queryset]
    decide
  · have h : recipe_list_action filterBugDB 1 none (some [1, 2])
        = recipe_get_queryset filterBugDB 1 := rfl
    rw [h, mem_recipe_queryset]
    decide

/-- Embeds the action surface of RecipeViewSet (views.py lines 35-47):
ModelViewSet contributes the six standard CRUD actions and the class
body declares no extra action method, so the router registers no other
route name for it. -/
def recipeViewSetActions : List String :=
  ["list", "create", "retrieve", "update", "partial_update", "destroy"]

/-- Embeds the route lookup the router performs for a RecipeViewSet
route name: only the names of declared actions resolve. -/
def recipeRouteExists (routeName : String) : Bool :=
  recipeViewSetActions.contains routeName

/-- C4 (code bug): RecipeViewSet declares no upload-image action, so
the route recipe-upload-image that test_upload_recipe_image and
test_upload_invalid_image resolve does not exist and no request to it
can behave as the claim requires. -/
theorem uploadImageRouteMissing :
    recipeRouteExists "upload-image" = false ∧
    recipeRouteExists "upload_image" = false := by
  decide

/-- Payload of a PATCH request on a recipe: every writable field is
optional; the image field is not writable through this serializer. -/
structure RecipePatchPayload where
  title : Option String
  time_minutes : Option Nat
  price : Option Nat
  link : Option String
  tags : Option (List Nat)
  ingredients : Option (List Nat)
  deriving Repr, DecidableEq

/-- Modelled from the spec: the PATCH partial update performed by the
framework serializer (serializers.py and the framework update path are
not under src/, only test_partial_update_recipe): a field absent from
the payload keeps its stored value, and a supplied tags or ingredients
list replaces the whole association set, it is not merged additively. -/
def patchRecipe (r : Recipe) (p : RecipePatchPayload) : Recipe :=
  { r with
    title := p.title.getD r.title
    time_minutes := p.time_minutes.getD r.time_minutes
    price := p.price.getD r.price
    link := p.link.getD r.link
    tags := p.tags.getD r.tags
    ingredients := p.ingredients.getD r.ingredients }

/-- Payload of a PUT request on a recipe: the required scalar fields
must be supplied, fields with defaults may be omitted. -/
structure RecipePutPayload where
  title : String
  time_minutes : Nat
  price : Nat
  link : Option String
  tags : Option (List Nat)
  ingredients : Option (List Nat)
  deriving Repr, DecidableEq

/-- Modelled from the spec: the PUT full update (serializers.py and the
framework update path are not under src/, only test_full_update_recipe):
every supplied field is written and a field with a default that the
payload omits is reset to that default, the empty string for link and
the empty association set for tags and ingredients. -/
def putRecipe (r : Recipe) (p : RecipePutPayload) : Recipe :=
  { r with
    title := p.title
    time_minutes := p.time_minutes
    price := p.price
    link := p.link.getD ""
    tags := p.tags.getD []
    ingredients := p.ingredients.getD [] }

/-- C5: PATCH leaves every field absent from the payload unchanged,
the tags association set included, a supplied tags list replaces the
full association set exactly, and a PUT whose payload omits tags clears
the associations to the empty set. -/
theorem patchFrameAndPutClearsTags (r : Recipe) (p : RecipePatchPayload)
    (q : RecipePutPayload) :
    (p.title = none → (patchRecipe r p).title = r.title) ∧
    (p.time_minutes = none → (patchRecipe r p).time_minutes = r.time_minutes) ∧
    (p.price = none → (patchRecipe r p).price = r.price) ∧
    (p.link = none → (patchRecipe r p).link = r.link) ∧
    (p.ingredients = none → (patchRecipe r p).ingredients = r.ingredients) ∧
    (p.tags = none → (patchRecipe r p).tags = r.tags) ∧
    (∀ ts : List Nat, p.tags = some ts → (patchRecipe r p).tags = ts) ∧
    (patchRecipe r p).id = r.id ∧
    (patchRecipe r p).user = r.user ∧
    (patchRecipe r p).image = r.image ∧
    (q.tags = none → (putRecipe r q).tags = []) := by
  refine ⟨?_, ?_, ?_, ?_, ?_, ?_, ?_, rfl, rfl, rfl, ?_⟩
  · intro h; simp [patchRecipe, h]
  · intro h; simp [patchRecipe, h]
  · intro h; simp [patchRecipe, h]
  · intro h; simp [patchRecipe, h]
  · intro h; simp [patchRecipe, h]
  · intro h; simp [patchRecipe, h]
  · intro ts h; simp [patchRecipe, h]
  · intro h; simp [putRecipe, h]

/-- Recipe used to exercise the update theorems: it starts with tag 5
assigned. -/
def updateRecipe : Recipe :=
  ⟨1, 1, "sample title", 10, 1000, "", none, [5], [6]⟩

/-- PATCH payload of test_partial_update_recipe: a new price and the
replacement tag list, every other field absent. -/
def updatePatch : RecipePatchPayload :=
  ⟨none, none, some 12340, none, some [7], none⟩

/-- PUT payload of test_full_update_recipe: all required scalars, no
tags field. -/
def updatePut : RecipePutPayload :=
  ⟨"Morgh va Berenj", 60, 2000, none, none, none⟩

/-- PATCH payload omitting the tags field: only the cooking time is
supplied. -/
def updatePatchNoTags : RecipePatchPayload :=
  ⟨none, some 25, none, none, none, none⟩

theorem patchFrameAndPutClearsTags_witness :
    (patchRecipe updateRecipe updatePatch).title = updateRecipe.title ∧
    (patchRecipe updateRecipe updatePatch).tags = [7] ∧
    (patchRecipe updateRecipe updatePatchNoTags).tags = updateRecipe.tags ∧
    (putRecipe updateRecipe updatePut).tags = [] := by
  have h := patchFrameAndPutClearsTags updateRecipe updatePatch updatePut
  have h2 := patchFrameAndPutClearsTags updateRecipe updatePatchNoTags updatePut
  exact ⟨h.1 rfl, h.2.2.2.2.2.2.1 [7] rfl, h2.2.2.2.2.2.1 rfl,
    h.2.2.2.2.2.2.2.2.2.2 rfl⟩

/-- Credentials posted to the token endpoint. -/
structure TokenRequest where
  email : String
  password : String
  deriving Repr, DecidableEq

/-- Response of the token endpoint: a 200 body holding the token key,
or a 400 body holding no token key. -/
inductive TokenResponse where
  | ok (token : String)
  | badRequest
  deriving Repr, DecidableEq

/-- Whether the response body contains the token key. -/
def TokenResponse.hasTokenKey : TokenResponse → Bool
  | .ok _ => true
  | .badRequest => false

/-- Modelled from the spec: POST /user/token (the user app views and
serializers are not under src/, only test_user_api): the serializer
requires a non-empty email and password and authenticates them against
the stored users; on success an opaque token tied to the user is
issued, otherwise the response is a 400 without a token key. -/
def create_token (db : DB) (req : TokenRequest) : TokenResponse :=
  if (req.email != "") && (req.password != "")
      && db.users.any (fun u => u.email == req.email && u.password == req.password)
  then .ok ("token:" ++ req.email)
  else .badRequest

/-- C6: under the registration invariant that every stored user has a
non-empty email and a password of at least the minimum length, the
token endpoint issues a token exactly when the supplied email and
password match a stored user, and any request with missing, empty or
incorrect credentials, or for a non-existent user, yields a 400
response without a token key. -/
theorem tokenIffCredentialsMatch (db : DB) (req : TokenRequest)
    (hdb : ∀ u ∈ db.users, u.email ≠ "" ∧ 5 ≤ u.password.length) :
    ((create_token db req).hasTokenKey = true ↔
      ∃ u ∈ db.users, u.email = req.email ∧ u.password = req.password) ∧
    ((¬ ∃ u ∈ db.users, u.email = req.email ∧ u.password = req.password) →
      create_token db req = TokenResponse.badRequest) := by
  constructor
  · constructor
    · intro h
      unfold create_token at h
      by_cases hc : ((req.email != "") && (req.password != "")
          && db.users.any (fun u => u.email == req.email && u.password == req.password)) = true
      · have hany := (Bool.and_eq_true _ _).mp hc |>.2
        rw [List.any_eq_true] at hany
        obtain ⟨u, hu, hmatch⟩ := hany
        have hm := (Bool.and_eq_true _ _).mp hmatch
        exact ⟨u, hu, by simpa using hm.1, by simpa using hm.2⟩
      · rw [if_neg hc] at h
        simp [TokenResponse.hasTokenKey] at h
    · intro ⟨u, hu, hemail, hpass⟩
      have hinv := hdb u hu
      have hemail' : req.email ≠ "" := hemail ▸ hinv.1
      have hpass' : req.password ≠ "" := by
        intro hempty
        have : u.password.length = 0 := by rw [hpass, hempty]; rfl
        omega
      have hany : db.users.any
          (fun u => u.email == req.email && u.password == req.password) = true := by
        rw [List.any_eq_true]
        exact ⟨u, hu, by simp [hemail, hpass]⟩
      unfold create_token
      rw [if_pos (by simp [hemail', hpass', hany])]
      rfl
  · intro hno
    unfold create_token
    rw [if_neg]
    intro hc
    have hany := (Bool.and_eq_true _ _).mp hc |>.2
    rw [List.any_eq_true] at hany
    obtain ⟨u, hu, hmatch⟩ := hany
    have hm := (Bool.and_eq_true _ _).mp hmatch
    exact hno ⟨u, hu, by simpa using hm.1, by simpa using hm.2⟩

/-- Store with one registered user for the token theorems. -/
def tokenDB : DB :=
  { users := [⟨1, "test@example.com", "testpass", "test", false, false, true⟩]
    tags := [], ingredients := [], recipes := [] }

theorem tokenIffCredentialsMatch_witness :
    (create_token tokenDB ⟨"test@example.com", "testpass"⟩).hasTokenKey = true ∧
    create_token tokenDB ⟨"test@example.com", "wrongpass"⟩ = TokenResponse.badRequest := by
  constructor
  · exact (tokenIffCredentialsMatch tokenDB ⟨"test@example.com", "testpass"⟩
      (by decide)).1.mpr (by decide)
  · exact (tokenIffCredentialsMatch tokenDB ⟨"test@example.com", "wrongpass"⟩
      (by decide)).2 (by decide)

/-- Payload posted to the registration endpoint. -/
structure RegisterRequest where
  email : String
  password : String
  name : String
  deriving Repr, DecidableEq

/-- Outcome of a registration request: a 201 with the created user, or
a 400 validation error. -/
inductive RegisterResult where
  | created (u : User)
  | badRequest
  deriving Repr, DecidableEq

/-- Next free user id of the store. -/
def nextUserId (db : DB) : Nat :=
  db.users.foldl (fun m u => max m u.id) 0 + 1

/-- Modelled from the spec: POST /user/create (the user serializer is
not under src/, only test_user_api): validation fails with 400 when the
email is missing or duplicate or the password is shorter than the
minimum length 5, and a failed request persists nothing; on success the
user is stored with the hashed password. -/
def create_user_endpoint (db : DB) (req : RegisterRequest) : RegisterResult × DB :=
  if (req.email == "") || db.users.any (fun u => u.email == req.email)
      || decide (req.password.length < 5)
  then (.badRequest, db)
  else
    let u : User := ⟨nextUserId db, req.email, req.password, req.name, false, false, true⟩
    (.created u, { db with users := db.users ++ [u] })

/-- C7: a registration request whose password is shorter than 5 is
rejected with a validation error and the user store is unchanged, so no
user record for that email is persisted by the request. -/
theorem shortPasswordRejected (db : DB) (req : RegisterRequest)
    (h : req.password.length < 5) :
    (create_user_endpoint db req).1 = RegisterResult.badRequest ∧
    (create_user_endpoint db req).2 = db := by
  unfold create_user_endpoint
  rw [if_pos (by simp [h])]
  exact ⟨rfl, rfl⟩

theorem shortPasswordRejected_witness :
    (create_user_endpoint tokenDB ⟨"new@example.com", "pass", ""⟩).1
      = RegisterResult.badRequest ∧
    (create_user_endpoint tokenDB ⟨"new@example.com", "pass", ""⟩).2 = tokenDB :=
  shortPasswordRejected tokenDB ⟨"new@example.com", "pass", ""⟩ (by decide)

/-- The two serializer classes RecipeViewSet can select between. -/
inductive SerializerClass where
  | recipeSerializer
  | recipeDetailSerializer
  deriving Repr, DecidableEq

/-- Embeds RecipeViewSet.get_serializer_class (views.py lines 44-47):
the retrieve action selects RecipeDetailSerializer, every other action
falls through to the class default RecipeSerializer. -/
def get_serializer_class (action : String) : SerializerClass :=
  if action == "retrieve" then .recipeDetailSerializer else .recipeSerializer

/-- Representation of the tag associations in a serialized recipe:
primary-key ids, or the nested objects. -/
inductive TagField where
  | ids (l : List Nat)
  | nested (l : List Tag)
  deriving Repr, DecidableEq

/-- Representation of the ingredient associations in a serialized
recipe. -/
inductive IngredientField where
  | ids (l : List Nat)
  | nested (l : List Ingredient)
  deriving Repr, DecidableEq

/-- One serialized recipe as returned in a response body. -/
structure RecipeRepr where
  id : Nat
  title : String
  time_minutes : Nat
  price : Nat
  link : String
  tags : TagField
  ingredients : IngredientField
  deriving Repr, DecidableEq

/-- Tags of the store matching a list of ids, in id-list order. -/
def lookupTags (db : DB) (ids : List Nat) : List Tag :=
  ids.filterMap (fun i => db.tags.find? (fun t => t.id == i))

/-- Ingredients of the store matching a list of ids. -/
def lookupIngredients (db : DB) (ids : List Nat) : List Ingredient :=
  ids.filterMap (fun j => db.ingredients.find? (fun i => i.id == j))

/-- Modelled from the spec: RecipeSerializer represents the tag and
ingredient associations by primary-key ids while RecipeDetailSerializer
nests the full Tag and Ingredient objects (serializers.py is not under
src/, only test_recipe_detail and the spec, section 4.3). -/
def serialize_recipe (db : DB) (cls : SerializerClass) (r : Recipe) : RecipeRepr :=
  match cls with
  | .recipeSerializer =>
      ⟨r.id, r.title, r.time_minutes, r.price, r.link, .ids r.tags, .ids r.ingredients⟩
  | .recipeDetailSerializer =>
      ⟨r.id, r.title, r.time_minutes, r.price, r.link,
        .nested (lookupTags db r.tags), .nested (lookupIngredients db r.ingredients)⟩

/-- C8: the retrieve action serializes a recipe with nested Tag and
Ingredient objects, while every other action represents the
associations by their ids only. -/
theorem retrieveNestsListGivesIds (db : DB) (r : Recipe) (action : String) :
    (serialize_recipe db (get_serializer_class "retrieve") r).tags
        = TagField.nested (lookupTags db r.tags) ∧
    (serialize_recipe db (get_serializer_class "retrieve") r).ingredients
        = IngredientField.nested (lookupIngredients db r.ingredients) ∧
    (action ≠ "retrieve" →
      (serialize_recipe db (get_serializer_class action) r).tags = TagField.ids r.tags ∧
      (serialize_recipe db (get_serializer_class action) r).ingredients
        = IngredientField.ids r.ingredients) := by
  refine ⟨rfl, rfl, ?_⟩
  intro h
  have hcls : get_serializer_class action = SerializerClass.recipeSerializer := by
    unfold get_serializer_class
    rw [if_neg (by simpa using h)]
  rw [hcls]
  exact ⟨rfl, rfl⟩

theorem retrieveNestsListGivesIds_witness :
    (serialize_recipe isolationDB (get_serializer_class "retrieve") updateRecipe).tags
        = TagField.nested (lookupTags isolationDB updateRecipe.tags) ∧
    (serialize_recipe isolationDB (get_serializer_class "list") updateRecipe).tags
        = TagField.ids updateRecipe.tags := by
  have h := retrieveNestsListGivesIds isolationDB updateRecipe "list"
  exact ⟨h.1, (h.2.2 (by decide)).1⟩

/-- Embeds the operation surface of the tag and ingredient endpoints
(views.py lines 10-14): BaseRecipeAttributeViewSet is a GenericViewSet
with exactly ListModelMixin and CreateModelMixin, so listing and
creation are the only routed operations; no update or destroy mixin is
present. -/
inductive AttrOp where
  | tagList (requester : Nat) (assigned_only : Bool)
  | tagCreate (requester : Nat) (name : String)
  | ingredientList (requester : Nat) (assigned_only : Bool)
  | ingredientCreate (requester : Nat) (name : String)
  deriving Repr, DecidableEq

/-- Next free tag id of the store. -/
def nextTagId (db : DB) : Nat :=
  db.tags.foldl (fun m t => max m t.id) 0 + 1

/-- Next free ingredient id of the store. -/
def nextIngredientId (db : DB) : Nat :=
  db.ingredients.foldl (fun m i => max m i.id) 0 + 1

/-- Embeds the effect of one tag or ingredient request on the store:
the list actions (views.py lines 16-17) only read, and the create
actions (views.py lines 19-20) save a new row owned by the requester. -/
def applyAttrOp (db : DB) : AttrOp → DB
  | .tagList _ _ => db
  | .ingredientList _ _ => db
  | .tagCreate u n => { db with tags := db.tags ++ [⟨nextTagId db, u, n⟩] }
  | .ingredientCreate u n =>
      { db with ingredients := db.ingredients ++ [⟨nextIngredientId db, u, n⟩] }

/-- A sequence of tag and ingredient requests applied in order. -/
def applyAttrOps (db : DB) (ops : List AttrOp) : DB :=
  ops.foldl applyAttrOp db

/-- C9: the tag and ingredient endpoints expose only list and create,
so under every sequence of such operations the stored tag and
ingredient rows are preserved unremoved and unmodified, and for every
user the set of owned tags and ingredients is non-decreasing. -/
theorem attrStoreNonDecreasing (db : DB) (ops : List AttrOp) :
    db.tags.Sublist (applyAttrOps db ops).tags ∧
    db.ingredients.Sublist (applyAttrOps db ops).ingredients ∧
    (∀ u : Nat,
      (db.tags.filter (fun t => t.user == u)).Sublist
        ((applyAttrOps db ops).tags.filter (fun t => t.user == u)) ∧
      (db.ingredients.filter (fun i => i.user == u)).Sublist
        ((applyAttrOps db ops).ingredients.filter (fun i => i.user == u))) := by
  have main : ∀ ops : List AttrOp, ∀ db : DB,
      db.tags.Sublist (applyAttrOps db ops).tags ∧
      db.ingredients.Sublist (applyAttrOps db ops).ingredients := by
    intro ops
    induction ops with
    | nil => exact fun db => ⟨List.Sublist.refl _, List.Sublist.refl _⟩
    | cons op rest ih =>
      intro db
      have hstep : db.tags.Sublist (applyAttrOp db op).tags ∧
          db.ingredients.Sublist (applyAttrOp db op).ingredients := by
        cases op with
        | tagList u a => exact ⟨List.Sublist.refl _, List.Sublist.refl _⟩
        | ingredientList u a => exact ⟨List.Sublist.refl _, List.Sublist.refl _⟩
        | tagCreate u n =>
            exact ⟨List.sublist_append_left _ _, List.Sublist.refl _⟩
        | ingredientCreate u n =>
            exact ⟨List.Sublist.refl _, List.sublist_append_left _ _⟩
      have htail : applyAttrOps db (op :: rest) = applyAttrOps (applyAttrOp db op) rest := rfl
      rw [htail]
      exact ⟨hstep.1.trans (ih (applyAttrOp db op)).1,
             hstep.2.trans (ih (applyAttrOp db op)).2⟩
  refine ⟨(main ops db).1, (main ops db).2, fun u => ⟨?_, ?_⟩⟩
  · exact (main ops db).1.filter _
  · exact (main ops db).2.filter _

/-- Payload posted to the tag or ingredient create endpoint: the name,
plus an owner id a client may try to smuggle into the request body. -/
structure AttrPayload where
  name : String
  user : Option Nat
  deriving Repr, DecidableEq

/-- Embeds BaseRecipeAttributeViewSet.perform_create (views.py lines
19-20) for tags: serializer.save is called with user set to the
authenticated requester, which overrides any owner value carried by the
request payload. -/
def perform_create_tag (requester : Nat) (p : AttrPayload) (fresh : Nat) : Tag :=
  ⟨fresh, requester, p.name⟩

/-- Embeds BaseRecipeAttributeViewSet.perform_create (views.py lines
19-20) for ingredients. -/
def perform_create_ingredient (requester : Nat) (p : AttrPayload) (fresh : Nat) :
    Ingredient :=
  ⟨fresh, requester, p.name⟩

/-- C10: every tag or ingredient created through the API is owned by
the authenticated requester, and whatever owner value the payload
carries is ignored: the saved row is identical for any claimed owner. -/
theorem createdOwnedByRequester (requester fresh : Nat) (p : AttrPayload)
    (claimed : Option Nat) :
    (perform_create_tag requester p fresh).user = requester ∧
    (perform_create_ingredient requester p fresh).user = requester ∧
    perform_create_tag requester { p with user := claimed } fresh
      = perform_create_tag requester p fresh ∧
    perform_create_ingredient requester { p with user := claimed } fresh
      = perform_create_ingredient requester p fresh :=
  ⟨rfl, rfl, rfl, rfl⟩

end RecipeApp
